import Mathlib

set_option maxRecDepth 100000

/-!
Shallow embedding of the Talk2db query-agent core (`src/app.py`):
the self-correction loop (retrieval breadth, prompt building, execution,
rollback, error reporting), the result handling and the chart selection.
External services (vector store, LLM, SQL engine) are modelled as an
explicit `World` of per-attempt oracles; everything the script itself
computes is translated directly from the source.
-/

namespace Talk2db

/-- Pandas column dtypes as the script distinguishes them via
`select_dtypes(include=[...])`: `number`, `object`, `datetime`,
and anything else (e.g. bool). -/
inductive Dtype
  | number
  | obj
  | datetime
  | other
deriving DecidableEq, Repr

/-- A cell value of a materialized result. Non-finite floats are kept
symbolic (`nan`, `inf`, `ninf`) so that their presence in a result is
observable. -/
inductive Val
  | int (n : Int)
  | nan
  | inf
  | ninf
  | str (s : String)
  | null
deriving DecidableEq, Repr

structure Column where
  name : String
  dtype : Dtype
deriving DecidableEq, Repr

/-- A materialized tabular result (`pd.read_sql` output): named, typed
columns and ordered rows. -/
structure DataFrame where
  cols : List Column
  rows : List (List Val)
deriving DecidableEq, Repr

/-- Pandas `df.empty`: true when some axis has length 0. -/
def DataFrame.emptyB (df : DataFrame) : Bool :=
  df.rows.isEmpty || df.cols.isEmpty

/-- Does the result contain any non-finite numeric value? -/
def DataFrame.hasNonFinite (df : DataFrame) : Bool :=
  df.rows.any fun r => r.any fun v =>
    v == Val.nan || v == Val.inf || v == Val.ninf

/-- `pat` is a prefix of `l` (character lists). -/
def prefixMatch : List Char → List Char → Bool
  | [], _ => true
  | _ :: _, [] => false
  | p :: ps, c :: cs => p == c && prefixMatch ps cs

/-- `pat` occurs as a contiguous sublist of `l`. -/
def containsList (pat : List Char) : List Char → Bool
  | [] => pat.isEmpty
  | c :: cs => prefixMatch pat (c :: cs) || containsList pat cs

/-- Substring occurrence test on strings (Python `pat in s`). -/
def strContains (s pat : String) : Bool :=
  containsList pat.data s.data

/-- `app.py` line 123: `current_k = 3 if attempt == 0 else 5`. -/
def current_k (attempt : Nat) : Nat :=
  if attempt == 0 then 3 else 5

/-- `app.py` lines 129-131: the retry hint string. The source computes it
but never interpolates it into the prompt, so `runBody` below binds it to
an unused local exactly as the script does. -/
def retry_hint (attempt : Nat) (error_feedback : String) : String :=
  if attempt > 0 then
    "\n⚠️ FIX THIS ERROR: Your previous query failed with: " ++
      error_feedback ++ ". Please re-check table aliases and column locations."
  else ""

/-- `app.py` lines 133-156: the f-string prompt, verbatim, with the two
interpolation slots `schema_context` and `user_query`. -/
def buildPrompt (schema_context : String) (user_query : String) : String :=
  "\n                System: You are a professional PostgreSQL Expert. Generate a SQL query using ONLY the schema context provided below.\n\n                ### Discovered Schema (Source of Truth):\n                " ++
  schema_context ++
  "\n\n                ### Strict Generation Rules:\n                1. **Dynamic Aliasing**: Assign a short alias (e.g., t1, t2) to every table identified in the Schema above.\n                2. **Explicit Column Scoping**: Prefix EVERY column in the SELECT, JOIN, and WHERE clauses with its assigned table alias to prevent \"UndefinedColumn\" errors.\n                3. **Multi-Table Joins**: If the user query requires data from multiple tables, perform an INNER JOIN on the common key (usually \x27customer_name\x27 or \x27customer_id\x27).\n                4. **Business Logic Mapping**: \n                - If \x27status_id\x27 is used: It is a BIGINT. Use 1 for \x27active\x27 and 4 for \x27churned\x27.\n                - NEVER compare \x27status_id\x27 to strings.\n                5. **Schema Adherence**: Only use columns explicitly listed in the Context above. If a column like \x27status_id\x27 is only listed under Table A, do not look for it in Table B.\n                6. **Output**: Return ONLY the SQL code inside ```sql blocks.\n                7. **Aggregation Requirement**: When asked for \x27top methods\x27, \x27categories\x27, or \x27rankings\x27, ALWAYS use SUM() or COUNT() with a GROUP BY clause. Do not return individual rows.\"\n\n                ### Example Logic:\n                - User asks for \x27Active\x27 data: Use WHERE alias.status_id = 1\n                - User asks for \x27Churned\x27 data: Use WHERE alias.status_id = 4\n\n                Question: " ++
  user_query ++
  "\n                SQL:\n                "

/-- Python `str.split` on character lists: split at each leftmost
non-overlapping occurrence of `sep`, separator not kept. `fuel` bounds
the structural recursion; every step consumes at least one character, so
`length + 1` units are always enough (the fuel-exhausted fallback is
never reached from `pySplit`). -/
def splitFuel (sep : List Char) : Nat → List Char → List Char → List (List Char)
  | 0, rest, acc => [acc.reverse ++ rest]
  | _ + 1, [], acc => [acc.reverse]
  | fuel + 1, c :: cs, acc =>
    if prefixMatch sep (c :: cs) then
      acc.reverse :: splitFuel sep fuel (List.drop sep.length (c :: cs)) []
    else
      splitFuel sep fuel cs (c :: acc)

/-- Python `s.split(sep)` for non-empty `sep`. -/
def pySplit (s sep : String) : List String :=
  (splitFuel sep.data (s.data.length + 1) s.data []).map String.mk

def dropWhileWs : List Char → List Char
  | [] => []
  | c :: cs => if c.isWhitespace then dropWhileWs cs else c :: cs

/-- Python `s.strip()`: remove leading and trailing whitespace. -/
def pyStrip (s : String) : String :=
  String.mk ((dropWhileWs (dropWhileWs s.data).reverse).reverse)

/-- `app.py` line 161:
`response.content.split("\x60\x60\x60sql")[1].split("\x60\x60\x60")[0].strip()`.
Indexing `[1]` raises when no fenced block is present; that exception is
what the loop's handler catches. -/
def extractSql (content : String) : Except String String :=
  match pySplit content "```sql" with
  | _ :: after :: _ => Except.ok (pyStrip ((pySplit after "```").headD ""))
  | _ => Except.error "list index out of range"

/-- Chart kinds the spec's classifier talks about. The script itself only
ever constructs a bar chart (`px.bar`, line 194). -/
inductive ChartKind
  | pie
  | line
  | bar
deriving DecidableEq, Repr

structure Chart where
  kind : ChartKind
  x : String
  y : String
  color : String
deriving DecidableEq, Repr

def isNumCol (c : Column) : Bool :=
  c.dtype == Dtype.number

def isCatCol (c : Column) : Bool :=
  c.dtype == Dtype.obj || c.dtype == Dtype.datetime

/-- `app.py` lines 191-195: `nums = df.select_dtypes(include=['number']).columns`,
`cats = df.select_dtypes(include=['object', 'datetime']).columns`; when both
are non-empty, `px.bar(df, x=cats[0], y=nums[0], color=cats[0], ...)`. -/
def classify (user_query : String) (df : DataFrame) : Option Chart :=
  let nums := (df.cols.filter isNumCol).map Column.name
  let cats := (df.cols.filter isCatCol).map Column.name
  match nums, cats with
  | n :: _, c :: _ => some { kind := ChartKind.bar, x := c, y := n, color := c }
  | _, _ => none

/-- The three external round-trips of one attempt, indexed by attempt
number: Pinecone `similarity_search` (returns the docs' page contents),
`llm.invoke` (returns `response.content`), and `pd.read_sql`. An
`Except.error` is the exception the `try` block catches. -/
structure World where
  search : Nat → Nat → Except String (List String)
  invoke : Nat → String → Except String String
  readSql : Nat → String → Except String DataFrame

/-- What one iteration of the `try` block produced: either a materialized
result, or the caught exception together with how far the body got
(was the prompt built? was `sql_raw` assigned?). -/
inductive BodyResult
  | ok (prompt sql : String) (df : DataFrame)
  | err (prompt : Option String) (sql : Option String) (msg : String)
deriving Repr

/-- `app.py` lines 120-168: the body of the `try` block for one attempt. -/
def runBody (w : World) (attempt : Nat) (error_feedback : String)
    (user_query : String) : BodyResult :=
  let k := current_k attempt
  match w.search attempt k with
  | Except.error e => BodyResult.err none none e
  | Except.ok docs =>
    let schema_context := String.intercalate "\n" docs
    let _retry_hint := retry_hint attempt error_feedback
    let prompt := buildPrompt schema_context user_query
    match w.invoke attempt prompt with
    | Except.error e => BodyResult.err (some prompt) none e
    | Except.ok content =>
      match extractSql content with
      | Except.error e => BodyResult.err (some prompt) none e
      | Except.ok sql_raw =>
        match w.readSql attempt sql_raw with
        | Except.error e => BodyResult.err (some prompt) (some sql_raw) e
        | Except.ok df => BodyResult.ok prompt sql_raw df

inductive Outcome
  | succ
  | fail (msg : String)
deriving DecidableEq, Repr

def Outcome.isFail : Outcome → Bool
  | Outcome.succ => false
  | Outcome.fail _ => true

/-- Observable record of one loop iteration: attempt index, breadth `k`
used for retrieval, the prompt built (none when retrieval itself raised),
the outcome, and whether the handler's `ROLLBACK` ran. -/
structure AttemptTrace where
  idx : Nat
  k : Nat
  prompt : Option String
  outcome : Outcome
  rolledBack : Bool
deriving DecidableEq, Repr

/-- The loop's mutable locals (`app.py` lines 111-115) plus the
observable history: `trace` of iterations, count of `ROLLBACK`s issued,
and the error surfaced via `st.error`/`st.warning` on exhaustion. -/
structure LoopState where
  attempt : Nat
  success : Bool
  error_feedback : String
  sql_raw : String
  df : Option DataFrame
  trace : List AttemptTrace
  rollbacks : Nat
  reported : Option String
deriving Repr

/-- `app.py` line 111. -/
def max_retries : Nat := 2

def initState : LoopState :=
  { attempt := 0, success := false, error_feedback := "", sql_raw := "",
    df := none, trace := [], rollbacks := 0, reported := none }

/-- One iteration of the `while` body: run the `try` block; on success set
the flag (line 168), on exception increment `attempt`, record the error,
issue `ROLLBACK` (lines 170-175) and, when the budget is now spent, report
the last error (lines 177-179). -/
def stepOnce (w : World) (user_query : String) (s : LoopState) : LoopState :=
  match runBody w s.attempt s.error_feedback user_query with
  | BodyResult.ok prompt sql df =>
      { s with
        success := true
        sql_raw := sql
        df := some df
        trace := s.trace ++
          [{ idx := s.attempt, k := current_k s.attempt,
             prompt := some prompt, outcome := Outcome.succ,
             rolledBack := false }] }
  | BodyResult.err prompt sqlOpt msg =>
      { s with
        attempt := s.attempt + 1
        error_feedback := msg
        sql_raw := sqlOpt.getD s.sql_raw
        rollbacks := s.rollbacks + 1
        trace := s.trace ++
          [{ idx := s.attempt, k := current_k s.attempt,
             prompt := prompt, outcome := Outcome.fail msg,
             rolledBack := true }]
        reported := if s.attempt + 1 == max_retries then some msg
                    else s.reported }

/-- Fuel-indexed unfolding of `while attempt < max_retries and not success`
(`app.py` line 118). `max_retries` units of fuel are exact: every failing
iteration increments `attempt`, so the guard goes false before fuel runs
out (`loopGo_guard_false` below). -/
def loopGo (w : World) (user_query : String) : Nat → LoopState → LoopState
  | 0, s => s
  | fuel + 1, s =>
      if s.success then s
      else if s.attempt < max_retries then
        loopGo w user_query fuel (stepOnce w user_query s)
      else s

/-- The whole self-correction loop for one submitted question. -/
def runLoop (w : World) (user_query : String) : LoopState :=
  loopGo w user_query max_retries initState

/-- What the presentation block renders for one question. -/
structure Rendered where
  table : Bool
  sqlShown : Bool
  chart : Option Chart
deriving DecidableEq, Repr

/-- `app.py` lines 182-195: `if success and not df.empty:` show the
dataframe, the SQL when the checkbox is on, and the chart when `classify`
yields one. With `success` false, `df` was never assigned, and the block
is skipped by short-circuit. -/
def present (show_sql : Bool) (user_query : String) (s : LoopState) : Rendered :=
  match s.df with
  | some df =>
      if s.success && !df.emptyB then
        { table := true, sqlShown := show_sql, chart := classify user_query df }
      else { table := false, sqlShown := false, chart := none }
  | none => { table := false, sqlShown := false, chart := none }

/-! ### Concrete environments for witnesses and counterexamples -/

/-- A model reply whose fenced block extracts to `SELECT 1`. -/
def okContent : String := "```sql\nSELECT 1\n```"

/-- A small successful result: one categorical and one numeric column. -/
def dfSimple : DataFrame :=
  { cols := [{ name := "region", dtype := Dtype.obj },
             { name := "total", dtype := Dtype.number }],
    rows := [[Val.str "east", Val.int 5]] }

/-- Environment where every external call succeeds. -/
def wOK : World :=
  { search := fun _ _ => Except.ok ["facts"]
    invoke := fun _ _ => Except.ok okContent
    readSql := fun _ _ => Except.ok dfSimple }

/-- Environment where attempt 0's execution raises and attempt 1
succeeds. -/
def wBug : World :=
  { search := fun _ _ => Except.ok ["facts"]
    invoke := fun _ _ => Except.ok okContent
    readSql := fun a _ =>
      if a == 0 then Except.error "XYZZY_UNDEFINED_COLUMN"
      else Except.ok dfSimple }

/-- Environment where the vector store is unreachable: every
`similarity_search` raises. -/
def wIndexDown : World :=
  { search := fun _ _ => Except.error "PineconeConnectionError: index unreachable"
    invoke := fun _ _ => Except.ok okContent
    readSql := fun _ _ => Except.ok dfSimple }

/-- Environment where execution fails on both attempts, with distinct
messages. -/
def wFailTwice : World :=
  { search := fun _ _ => Except.ok ["facts"]
    invoke := fun _ _ => Except.ok okContent
    readSql := fun a _ =>
      if a == 0 then Except.error "first error" else Except.error "second error" }

/-- A result containing non-finite numeric values. -/
def dfNonFinite : DataFrame :=
  { cols := [{ name := "region", dtype := Dtype.obj },
             { name := "avg_cost", dtype := Dtype.number }],
    rows := [[Val.str "east", Val.inf], [Val.str "west", Val.nan]] }

/-- Environment whose query execution returns `dfNonFinite`. -/
def wNonFinite : World :=
  { search := fun _ _ => Except.ok ["facts"]
    invoke := fun _ _ => Except.ok okContent
    readSql := fun _ _ => Except.ok dfNonFinite }

/-- A result with one categorical and one numeric column, used against a
question that asks for a pie chart. -/
def dfPie : DataFrame :=
  { cols := [{ name := "category", dtype := Dtype.obj },
             { name := "total", dtype := Dtype.number }],
    rows := [[Val.str "a", Val.int 1]] }

/-- A successful query whose materialized result has zero rows. -/
def dfNoRows : DataFrame :=
  { cols := [{ name := "total", dtype := Dtype.number }], rows := [] }

/-- Environment whose query execution returns the zero-row result. -/
def wEmptyResult : World :=
  { search := fun _ _ => Except.ok ["facts"]
    invoke := fun _ _ => Except.ok okContent
    readSql := fun _ _ => Except.ok dfNoRows }

/-! ### Characterization of the loop's three possible runs -/

theorem runLoop_ok0 (w : World) (q p s : String) (d : DataFrame)
    (h0 : runBody w 0 "" q = BodyResult.ok p s d) :
    runLoop w q =
      { attempt := 0, success := true, error_feedback := "", sql_raw := s,
        df := some d,
        trace := [{ idx := 0, k := 3, prompt := some p,
                    outcome := Outcome.succ, rolledBack := false }],
        rollbacks := 0, reported := none } := by
  simp [runLoop, loopGo, max_retries, initState, stepOnce, h0, current_k]

theorem runLoop_err_ok (w : World) (q : String) (p0 : Option String)
    (so0 : Option String) (m : String) (p1 s1 : String) (d : DataFrame)
    (h0 : runBody w 0 "" q = BodyResult.err p0 so0 m)
    (h1 : runBody w 1 m q = BodyResult.ok p1 s1 d) :
    runLoop w q =
      { attempt := 1, success := true, error_feedback := m, sql_raw := s1,
        df := some d,
        trace := [{ idx := 0, k := 3, prompt := p0,
                    outcome := Outcome.fail m, rolledBack := true },
                  { idx := 1, k := 5, prompt := some p1,
                    outcome := Outcome.succ, rolledBack := false }],
        rollbacks := 1, reported := none } := by
  simp [runLoop, loopGo, max_retries, initState, stepOnce, h0, h1, current_k]

theorem runLoop_err_err (w : World) (q : String) (p0 p1 : Option String)
    (so0 so1 : Option String) (m0 m1 : String)
    (h0 : runBody w 0 "" q = BodyResult.err p0 so0 m0)
    (h1 : runBody w 1 m0 q = BodyResult.err p1 so1 m1) :
    runLoop w q =
      { attempt := 2, success := false, error_feedback := m1,
        sql_raw := so1.getD (so0.getD ""),
        df := none,
        trace := [{ idx := 0, k := 3, prompt := p0,
                    outcome := Outcome.fail m0, rolledBack := true },
                  { idx := 1, k := 5, prompt := p1,
                    outcome := Outcome.fail m1, rolledBack := true }],
        rollbacks := 2, reported := some m1 } := by
  simp [runLoop, loopGo, max_retries, initState, stepOnce, h0, h1, current_k]

/-- Case split on the whole run: exactly one of the three shapes above
occurs. -/
theorem runLoop_cases (w : World) (q : String) :
    (∃ p s d, runBody w 0 "" q = BodyResult.ok p s d) ∨
    (∃ p0 so0 m, runBody w 0 "" q = BodyResult.err p0 so0 m ∧
      ((∃ p1 s1 d, runBody w 1 m q = BodyResult.ok p1 s1 d) ∨
       (∃ p1 so1 m1, runBody w 1 m q = BodyResult.err p1 so1 m1))) := by
  cases h0 : runBody w 0 "" q with
  | ok p s d => exact Or.inl ⟨p, s, d, rfl⟩
  | err p0 so0 m =>
    refine Or.inr ⟨p0, so0, m, rfl, ?_⟩
    cases h1 : runBody w 1 m q with
    | ok p1 s1 d => exact Or.inl ⟨p1, s1, d, rfl⟩
    | err p1 so1 m1 => exact Or.inr ⟨p1, so1, m1, rfl⟩

/-- The `while` guard is false on the final state: the loop always exits
because the guard failed, never because fuel ran out. -/
theorem loopGo_guard_false (w : World) (q : String) :
    (runLoop w q).success = true ∨ ¬ (runLoop w q).attempt < max_retries := by
  rcases runLoop_cases w q with ⟨p, s, d, h0⟩ | ⟨p0, so0, m, h0, hrest⟩
  · rw [runLoop_ok0 w q p s d h0]; exact Or.inl rfl
  · rcases hrest with ⟨p1, s1, d, h1⟩ | ⟨p1, so1, m1, h1⟩
    · rw [runLoop_err_ok w q p0 so0 m p1 s1 d h0 h1]; exact Or.inl rfl
    · rw [runLoop_err_err w q p0 p1 so0 so1 m m1 h0 h1]
      exact Or.inr (by show ¬ (2 : Nat) < max_retries; decide)

/-! ### Helper lemmas -/

/-- The head of a filtered-then-mapped list is the image of the first
element satisfying the predicate. -/
theorem head_filter_map_eq_find {α β : Type} (p : α → Bool) (f : α → β) :
    ∀ l : List α, ((l.filter p).map f).head? = (l.find? p).map f
  | [] => rfl
  | a :: l => by
    by_cases h : p a
    · simp [h]
    · simp [h, head_filter_map_eq_find p f l]

/-- The body of one attempt never reads the error feedback: the two
runs are definitionally identical because `retry_hint` is bound but
never used. -/
theorem runBody_ignores_feedback (w : World) (a : Nat) (e1 e2 q : String) :
    runBody w a e1 q = runBody w a e2 q := rfl

/-! ### Claims -/

/-- C1: the claim says every retry prompt contains the prior attempt's
error message plus a fix instruction. In the source the hint string is
built (`retry_hint`) but never interpolated into the prompt: in a run
whose first execution fails with `XYZZY_UNDEFINED_COLUMN`, the second
attempt's prompt does not contain that message (while the computed,
discarded hint does), and more generally the attempt body is independent
of the error feedback. -/
theorem C1_retry_prompt_omits_prior_error :
    (runLoop wBug "q1").trace.map AttemptTrace.outcome =
      [Outcome.fail "XYZZY_UNDEFINED_COLUMN", Outcome.succ] ∧
    (runLoop wBug "q1").trace.map AttemptTrace.prompt =
      [some (buildPrompt (String.intercalate "\n" ["facts"]) "q1"),
       some (buildPrompt (String.intercalate "\n" ["facts"]) "q1")] ∧
    strContains (buildPrompt (String.intercalate "\n" ["facts"]) "q1")
      "XYZZY_UNDEFINED_COLUMN" = false ∧
    strContains (retry_hint 1 "XYZZY_UNDEFINED_COLUMN")
      "XYZZY_UNDEFINED_COLUMN" = true ∧
    (∀ (w : World) (a : Nat) (e1 e2 q : String),
      runBody w a e1 q = runBody w a e2 q) :=
  ⟨rfl, rfl, by decide, by decide, runBody_ignores_feedback⟩

/-- C2: for every question and environment, the loop performs at most
`max_retries` attempts, the budget is the fixed value 2, and the
retrieval breadth `k` strictly increases from each attempt to the
next. -/
theorem C2_bounded_attempts_and_escalating_k (w : World) (q : String) :
    max_retries = 2 ∧
    (runLoop w q).trace.length ≤ max_retries ∧
    List.Chain' (· < ·) ((runLoop w q).trace.map AttemptTrace.k) := by
  refine ⟨rfl, ?_⟩
  rcases runLoop_cases w q with ⟨p, s, d, h0⟩ | ⟨p0, so0, m, h0, hrest⟩
  · rw [runLoop_ok0 w q p s d h0]
    exact ⟨by simp [max_retries], by simp⟩
  · rcases hrest with ⟨p1, s1, d, h1⟩ | ⟨p1, so1, m1, h1⟩
    · rw [runLoop_err_ok w q p0 so0 m p1 s1 d h0 h1]
      exact ⟨by simp [max_retries], by simp⟩
    · rw [runLoop_err_err w q p0 p1 so0 so1 m m1 h0 h1]
      exact ⟨by simp [max_retries], by simp⟩

/-- C3: if an attempt succeeds, it is the last loop iteration: the trace
ends at that attempt and no further attempt is made, whatever retry
budget remains. -/
theorem C3_success_stops_loop (w : World) (q : String) (i : Nat)
    (t : AttemptTrace)
    (hget : (runLoop w q).trace.get? i = some t)
    (hs : t.outcome = Outcome.succ) :
    (runLoop w q).trace.length = i + 1 ∧ (runLoop w q).success = true := by
  rcases runLoop_cases w q with ⟨p, s, d, h0⟩ | ⟨p0, so0, m, h0, hrest⟩
  · rw [runLoop_ok0 w q p s d h0] at hget ⊢
    match i, hget with
    | 0, _ => exact ⟨rfl, rfl⟩
  · rcases hrest with ⟨p1, s1, d, h1⟩ | ⟨p1, so1, m1, h1⟩
    · rw [runLoop_err_ok w q p0 so0 m p1 s1 d h0 h1] at hget ⊢
      match i, hget with
      | 0, hget => rw [(Option.some_inj.mp hget : _ = t).symm] at hs; cases hs
      | 1, _ => exact ⟨rfl, rfl⟩
    · rw [runLoop_err_err w q p0 p1 so0 so1 m m1 h0 h1] at hget ⊢
      match i, hget with
      | 0, hget => rw [(Option.some_inj.mp hget : _ = t).symm] at hs; cases hs
      | 1, hget => rw [(Option.some_inj.mp hget : _ = t).symm] at hs; cases hs

/-- Witness for C3: in the all-successful environment the loop's trace is
the single successful attempt 0. -/
theorem C3_success_stops_loop_witness :
    (runLoop wOK "list totals").trace.length = 0 + 1 ∧
    (runLoop wOK "list totals").success = true :=
  C3_success_stops_loop wOK "list totals" 0
    { idx := 0, k := 3,
      prompt := some (buildPrompt (String.intercalate "\n" ["facts"]) "list totals"),
      outcome := Outcome.succ, rolledBack := false }
    rfl rfl

/-- C4 counterexample: the claim says a retrieval failure is fatal and
propagated with no further attempt. With the vector store unreachable,
the loop instead catches the failure on attempt 0 and makes a second
attempt (a second trace entry with k = 5 exists), finishing as an
ordinary reported exhaustion. -/
theorem C4_counterexample_retrieval_failure_retried :
    (runLoop wIndexDown "q4").trace.map AttemptTrace.outcome =
      [Outcome.fail "PineconeConnectionError: index unreachable",
       Outcome.fail "PineconeConnectionError: index unreachable"] ∧
    (runLoop wIndexDown "q4").trace.map AttemptTrace.k = [3, 5] ∧
    (runLoop wIndexDown "q4").reported =
      some "PineconeConnectionError: index unreachable" :=
  ⟨rfl, rfl, rfl⟩

/-- C4 (amended): a failure raised by `similarity_search` is caught like
any other attempt failure: it becomes the attempt's error feedback (a
trace entry with no prompt built) and the loop proceeds to a second
attempt rather than propagating. -/
theorem C4_retrieval_failure_feeds_retry (w : World) (q m : String)
    (h : w.search 0 (current_k 0) = Except.error m) :
    (runLoop w q).trace.get? 0 =
      some { idx := 0, k := 3, prompt := none,
             outcome := Outcome.fail m, rolledBack := true } ∧
    (runLoop w q).trace.length = 2 := by
  have h0 : runBody w 0 "" q = BodyResult.err none none m := by
    unfold runBody
    dsimp only
    rw [h]
  cases h1 : runBody w 1 m q with
  | ok p1 s1 d => rw [runLoop_err_ok w q none none m p1 s1 d h0 h1]; exact ⟨rfl, rfl⟩
  | err p1 so1 m1 => rw [runLoop_err_err w q none p1 none so1 m m1 h0 h1]; exact ⟨rfl, rfl⟩

/-- Witness for C4 (amended) at the concrete unreachable-index
environment. -/
theorem C4_retrieval_failure_feeds_retry_witness :
    (runLoop wIndexDown "q4w").trace.get? 0 =
      some { idx := 0, k := 3, prompt := none,
             outcome := Outcome.fail "PineconeConnectionError: index unreachable",
             rolledBack := true } ∧
    (runLoop wIndexDown "q4w").trace.length = 2 :=
  C4_retrieval_failure_feeds_retry wIndexDown "q4w"
    "PineconeConnectionError: index unreachable" rfl

/-- C5: whenever the loop ends unsuccessfully, both attempts failed, and
the outcome reported to the caller (`st.error`/`st.warning`) carries the
second (last) attempt's raw message verbatim; the loop returns a state
rather than raising. -/
theorem C5_exhaustion_reports_last_error (w : World) (q : String)
    (h : (runLoop w q).success = false) :
    ∃ m0 m1, (runLoop w q).trace.map AttemptTrace.outcome =
        [Outcome.fail m0, Outcome.fail m1] ∧
      (runLoop w q).reported = some m1 ∧
      (runLoop w q).error_feedback = m1 := by
  rcases runLoop_cases w q with ⟨p, s, d, h0⟩ | ⟨p0, so0, m, h0, hrest⟩
  · rw [runLoop_ok0 w q p s d h0] at h; cases h
  · rcases hrest with ⟨p1, s1, d, h1⟩ | ⟨p1, so1, m1, h1⟩
    · rw [runLoop_err_ok w q p0 so0 m p1 s1 d h0 h1] at h; cases h
    · rw [runLoop_err_err w q p0 p1 so0 so1 m m1 h0 h1]
      exact ⟨m, m1, rfl, rfl, rfl⟩

/-- Witness for C5: with two distinct failures, the reported error is the
second message, not the first. -/
theorem C5_exhaustion_reports_last_error_witness :
    (runLoop wFailTwice "q5").success = false ∧
    (∃ m0 m1, (runLoop wFailTwice "q5").trace.map AttemptTrace.outcome =
        [Outcome.fail m0, Outcome.fail m1] ∧
      (runLoop wFailTwice "q5").reported = some m1 ∧
      (runLoop wFailTwice "q5").error_feedback = m1) ∧
    (runLoop wFailTwice "q5").reported = some "second error" :=
  ⟨rfl, C5_exhaustion_reports_last_error wFailTwice "q5" rfl, rfl⟩

/-- C6 counterexample: the claim says non-finite values are replaced by a
missing-value marker before the result leaves the executor. In an
environment whose query result contains `inf` and `nan`, the loop's
returned result is that table unchanged, still containing non-finite
values. -/
theorem C6_counterexample_nonfinite_survives :
    (runLoop wNonFinite "q6").success = true ∧
    (runLoop wNonFinite "q6").df = some dfNonFinite ∧
    dfNonFinite.hasNonFinite = true :=
  ⟨rfl, rfl, rfl⟩

/-- C6 (amended): the executor performs no normalization at all: whenever
an attempt succeeds, the result handed upward is exactly the table
`pd.read_sql` produced. -/
theorem C6_executor_passes_result_through (w : World) (a : Nat)
    (e q p s : String) (d : DataFrame)
    (h : runBody w a e q = BodyResult.ok p s d) :
    w.readSql a s = Except.ok d := by
  unfold runBody at h
  dsimp only at h
  split at h
  · cases h
  · split at h
    · cases h
    · split at h
      · cases h
      · split at h
        · cases h
        · cases h
          assumption

/-- Witness for C6 (amended) at the non-finite environment. -/
theorem C6_executor_passes_result_through_witness :
    wNonFinite.readSql 0 "SELECT 1" = Except.ok dfNonFinite :=
  C6_executor_passes_result_through wNonFinite 0 "" "q6"
    (buildPrompt (String.intercalate "\n" ["facts"]) "q6") "SELECT 1"
    dfNonFinite rfl

/-- C7 counterexample: the claim says a question containing "pie" yields
a pie chart. On a question literally containing "pie" (with a result that
has one categorical and one numeric column) the classifier still yields a
bar chart. -/
theorem C7_counterexample_pie_question_gets_bar :
    strContains "show a pie chart of totals" "pie" = true ∧
    classify "show a pie chart of totals" dfPie =
      some { kind := ChartKind.bar, x := "category", y := "total",
             color := "category" } ∧
    ChartKind.bar ≠ ChartKind.pie :=
  ⟨by decide, rfl, by decide⟩

/-- C7 (amended): the chart-kind selection does not scan the question at
all: the classifier's output is independent of the question text, and
whenever it produces a chart the kind is the grouped-bar kind. -/
theorem C7_classifier_ignores_question (q1 q2 : String) (df : DataFrame) :
    classify q1 df = classify q2 df ∧
    ∀ ch : Chart, classify q1 df = some ch → ch.kind = ChartKind.bar := by
  refine ⟨rfl, ?_⟩
  intro ch h
  unfold classify at h
  dsimp only at h
  split at h
  · cases h
    rfl
  · cases h

/-- Witness for C7 (amended) at a concrete question/result pair. -/
theorem C7_classifier_ignores_question_witness :
    classify "q7a" dfPie = classify "q7b" dfPie ∧
    Chart.kind { kind := ChartKind.bar, x := "category", y := "total",
                 color := "category" } = ChartKind.bar :=
  ⟨(C7_classifier_ignores_question "q7a" "q7b" dfPie).1,
   (C7_classifier_ignores_question "q7a" "q7b" dfPie).2
     { kind := ChartKind.bar, x := "category", y := "total",
       color := "category" } rfl⟩

/-- C8: the classifier produces a chart if and only if the result has at
least one numeric column and at least one categorical/temporal column,
and when it does, it plots the first column of each kind in the result's
column order. -/
theorem C8_chart_iff_numeric_and_categorical (q : String) (df : DataFrame) :
    ((classify q df).isSome ↔
      df.cols.any isNumCol = true ∧ df.cols.any isCatCol = true) ∧
    ∀ ch : Chart, classify q df = some ch →
      (df.cols.find? isNumCol).map Column.name = some ch.y ∧
      (df.cols.find? isCatCol).map Column.name = some ch.x := by
  have hany : ∀ p : Column → Bool,
      ((df.cols.filter p).map Column.name = [] ↔ df.cols.any p = false) := by
    intro p
    rw [List.map_eq_nil_iff, List.filter_eq_nil_iff, List.any_eq_false]
  constructor
  · unfold classify
    dsimp only
    rcases hn : (df.cols.filter isNumCol).map Column.name with _ | ⟨n, ns⟩ <;>
      rcases hc : (df.cols.filter isCatCol).map Column.name with _ | ⟨c, cs⟩
    · simp [(hany isNumCol).mp hn]
    · simp [(hany isNumCol).mp hn]
    · simp [(hany isCatCol).mp hc]
    · have h1 : df.cols.any isNumCol = true := by
        cases h : df.cols.any isNumCol
        · rw [(hany isNumCol).mpr h] at hn; cases hn
        · rfl
      have h2 : df.cols.any isCatCol = true := by
        cases h : df.cols.any isCatCol
        · rw [(hany isCatCol).mpr h] at hc; cases hc
        · rfl
      simp [h1, h2]
  · intro ch h
    unfold classify at h
    dsimp only at h
    rcases hn : (df.cols.filter isNumCol).map Column.name with _ | ⟨n, ns⟩ <;>
      rcases hc : (df.cols.filter isCatCol).map Column.name with _ | ⟨c, cs⟩ <;>
        rw [hn, hc] at h <;> cases h
    constructor
    · rw [← head_filter_map_eq_find isNumCol Column.name df.cols, hn]; rfl
    · rw [← head_filter_map_eq_find isCatCol Column.name df.cols, hc]; rfl

/-- Witness for C8 at a concrete two-column result: the first (and only)
numeric column and the first categorical column are the plotted ones. -/
theorem C8_chart_iff_numeric_and_categorical_witness :
    (dfSimple.cols.find? isNumCol).map Column.name = some "total" ∧
    (dfSimple.cols.find? isCatCol).map Column.name = some "region" :=
  (C8_chart_iff_numeric_and_categorical "q8" dfSimple).2
    { kind := ChartKind.bar, x := "region", y := "total", color := "region" }
    rfl

/-- C9: every failed attempt runs the handler, which issues a `ROLLBACK`
before the loop continues: the number of rollbacks equals the number of
failed attempts, and every failed trace entry is marked rolled back. -/
theorem C9_rollback_on_every_failed_attempt (w : World) (q : String) :
    (runLoop w q).rollbacks =
      ((runLoop w q).trace.filter (fun t => t.outcome.isFail)).length ∧
    ∀ t ∈ (runLoop w q).trace, t.outcome.isFail = true → t.rolledBack = true := by
  rcases runLoop_cases w q with ⟨p, s, d, h0⟩ | ⟨p0, so0, m, h0, hrest⟩
  · rw [runLoop_ok0 w q p s d h0]
    refine ⟨rfl, ?_⟩
    intro t ht hf
    simp at ht
    rw [ht] at hf
    cases hf
  · rcases hrest with ⟨p1, s1, d, h1⟩ | ⟨p1, so1, m1, h1⟩
    · rw [runLoop_err_ok w q p0 so0 m p1 s1 d h0 h1]
      refine ⟨rfl, ?_⟩
      intro t ht hf
      simp at ht
      rcases ht with rfl | rfl
      · rfl
      · cases hf
    · rw [runLoop_err_err w q p0 p1 so0 so1 m m1 h0 h1]
      refine ⟨rfl, ?_⟩
      intro t ht hf
      simp at ht
      rcases ht with rfl | rfl <;> rfl

/-- Witness for C9 at the doubly-failing environment: both rollback facts
hold of the concrete first failed attempt. -/
theorem C9_rollback_on_every_failed_attempt_witness :
    (runLoop wFailTwice "q9").rollbacks =
      ((runLoop wFailTwice "q9").trace.filter (fun t => t.outcome.isFail)).length ∧
    ({ idx := 0, k := 3,
       prompt := some (buildPrompt (String.intercalate "\n" ["facts"]) "q9"),
       outcome := Outcome.fail "first error",
       rolledBack := true } : AttemptTrace).rolledBack = true :=
  ⟨(C9_rollback_on_every_failed_attempt wFailTwice "q9").1,
   (C9_rollback_on_every_failed_attempt wFailTwice "q9").2 _
     (by
       rw [runLoop_err_err wFailTwice "q9"
         (some (buildPrompt (String.intercalate "\n" ["facts"]) "q9"))
         (some (buildPrompt (String.intercalate "\n" ["facts"]) "q9"))
         (some "SELECT 1") (some "SELECT 1") "first error" "second error"
         rfl rfl]
       exact List.Mem.head _) rfl⟩

/-- C10: when execution succeeds but the materialized result has zero
rows, the presentation block is skipped entirely — no table, no SQL echo,
no chart — and no error is reported. -/
theorem C10_empty_result_skips_presentation (w : World) (q : String)
    (show_sql : Bool) (df : DataFrame)
    (hdf : (runLoop w q).df = some df) (hrows : df.rows = []) :
    present show_sql q (runLoop w q) =
      { table := false, sqlShown := false, chart := none } ∧
    (runLoop w q).reported = none := by
  rcases runLoop_cases w q with ⟨p, s, d, h0⟩ | ⟨p0, so0, m, h0, hrest⟩
  · rw [runLoop_ok0 w q p s d h0] at hdf ⊢
    simp only [Option.some.injEq] at hdf
    subst hdf
    exact ⟨by simp [present, DataFrame.emptyB, hrows], rfl⟩
  · rcases hrest with ⟨p1, s1, d, h1⟩ | ⟨p1, so1, m1, h1⟩
    · rw [runLoop_err_ok w q p0 so0 m p1 s1 d h0 h1] at hdf ⊢
      simp only [Option.some.injEq] at hdf
      subst hdf
      exact ⟨by simp [present, DataFrame.emptyB, hrows], rfl⟩
    · rw [runLoop_err_err w q p0 p1 so0 so1 m m1 h0 h1] at hdf
      cases hdf

/-- Witness for C10 at the zero-row environment. -/
theorem C10_empty_result_skips_presentation_witness :
    present true "q10" (runLoop wEmptyResult "q10") =
      { table := false, sqlShown := false, chart := none } ∧
    (runLoop wEmptyResult "q10").reported = none :=
  C10_empty_result_skips_presentation wEmptyResult "q10" true dfNoRows rfl rfl

end Talk2db
